import Mathlib

/-!
Verification of the Text2SQL agentic query pipeline.

The repository ships the frontend (Next.js API route and the React component
`Text2SQLInterface`), developer scripts, and architecture documents.  The
backend components (semantic cache, feedback store, SQL generator, query
executor, orchestrator) are described by the specification; they are modelled
here as pure functions faithful to the spec's contracts, with external calls
(embedding provider, language model, database) abstracted as oracles supplied
in an environment record.  Frontend handlers are translated directly from
`frontend/components/Text2SQLInterface.tsx` and the CopilotKit API route.
-/

/-- Modelled from the spec: `backend/feedback_store.py` is not in `src/`.
Performance level enumeration of §3 (FeedbackMetrics). -/
inductive PerformanceLevel where
  | neutral
  | good
  | excellent
  | poor
  | critical
  deriving DecidableEq, Repr

/-- Modelled from the spec: `backend/feedback_store.py` is not in `src/`.
Performance-level derivation of §4.2, evaluated in priority order with the
first match winning: 3+ thumbs down is critical, 2+ thumbs down is poor,
3+ thumbs up is excellent, 2+ thumbs up is good, otherwise neutral. -/
def performanceLevel (thumbsUp thumbsDown : ℕ) : PerformanceLevel :=
  if 3 ≤ thumbsDown then PerformanceLevel.critical
  else if 2 ≤ thumbsDown then PerformanceLevel.poor
  else if 3 ≤ thumbsUp then PerformanceLevel.excellent
  else if 2 ≤ thumbsUp then PerformanceLevel.good
  else PerformanceLevel.neutral

/-- Modelled from the spec: `backend/feedback_store.py` is not in `src/`.
`successRate = thumbsUp / totalFeedback * 100`, and 0 when `totalFeedback`
is 0 (§3, FeedbackMetrics); `totalFeedback = thumbsUp + thumbsDown`. -/
def successRate (thumbsUp thumbsDown : ℕ) : ℚ :=
  if thumbsUp + thumbsDown = 0 then 0
  else (thumbsUp : ℚ) / ((thumbsUp : ℚ) + (thumbsDown : ℚ)) * 100

/-- Modelled from the spec: `backend/feedback_store.py` is not in `src/`.
A feedback event is an immutable (question, sql, vote, timestamp) record;
`vote = true` encodes a thumbs up, `vote = false` a thumbs down (§3). -/
structure FeedbackEvent where
  question : String
  sql : String
  vote : Bool
  timestamp : ℕ
  deriving DecidableEq, Repr

/-- Modelled from the spec: `backend/feedback_store.py` is not in `src/`.
Derived aggregate metrics for one question group (§3). -/
structure FeedbackMetrics where
  thumbsUp : ℕ
  thumbsDown : ℕ
  totalFeedback : ℕ
  rate : ℚ
  level : PerformanceLevel
  deriving DecidableEq, Repr

/-- Modelled from the spec: the feedback store groups events per question
(exact string match is the grouping key taken here, per §3 and §9). -/
def eventsFor (log : List FeedbackEvent) (q : String) : List FeedbackEvent :=
  List.filter (fun e => e.question == q) log

/-- Modelled from the spec: `getMetrics` aggregates all events matching the
question grouping key, recomputed on every read as a pure fold over the
event log (§4.2); zeroed metrics with a neutral level when none exist. -/
def getMetrics (log : List FeedbackEvent) (q : String) : FeedbackMetrics :=
  let evs := eventsFor log q
  let up := (List.filter (fun e => e.vote) evs).length
  let down := (List.filter (fun e => !e.vote) evs).length
  { thumbsUp := up
    thumbsDown := down
    totalFeedback := up + down
    rate := successRate up down
    level := performanceLevel up down }

/-- Modelled from the spec: `addFeedback` appends the event to the
append-only log, then recomputes and returns the metrics for that
question (§4.2). -/
def addFeedback (log : List FeedbackEvent) (e : FeedbackEvent) :
    List FeedbackEvent × FeedbackMetrics :=
  let log2 := log ++ [e]
  (log2, getMetrics log2 e.question)

/-- Modelled from the spec: `backend/semantic_cache.py` is not in `src/`.
A cache entry stores the original question and its SQL; the embedding is
abstracted into the similarity oracle, and recency is encoded by list
position (newest first). -/
structure CacheEntry where
  question : String
  sql : String
  deriving DecidableEq, Repr

/-- Modelled from the spec: the default similarity threshold 0.85 (§4.1). -/
def THRESHOLD : ℚ := 85 / 100

/-- Modelled from the spec: nearest-neighbor search over stored entries.
`sim` assigns each stored entry its cosine similarity to the incoming
question (the embedding provider and cosine product are abstracted as this
oracle).  Ties are broken in favor of the most-recently-inserted entry,
which sits earlier in the list (§4.1). -/
def bestMatch (sim : CacheEntry → ℚ) : List CacheEntry → Option (CacheEntry × ℚ)
  | [] => none
  | e :: es =>
    match bestMatch sim es with
    | none => some (e, sim e)
    | some (e2, s2) => if s2 ≤ sim e then some (e, sim e) else some (e2, s2)

/-- Modelled from the spec: `lookup(question)` returns the best match when
its similarity score reaches the threshold, and none (a cache miss)
otherwise (§4.1). -/
def lookup (sim : CacheEntry → ℚ) (cache : List CacheEntry) :
    Option (String × ℚ) :=
  match bestMatch sim cache with
  | none => none
  | some (e, s) => if THRESHOLD ≤ s then some (e.sql, s) else none

/-- A result row, as an ordered sequence of field-name-to-value pairs
(§4.4: insertion order is column order). -/
abbrev Row : Type := List (String × String)

/-- Modelled from the spec: the execution failure taxonomy of §4.4,
`SyntaxError`, `SchemaError`, `ConnectionError` and `Timeout`. -/
inductive ExecError where
  | synErr
  | schemaErr
  | connErr
  | timeoutErr
  deriving DecidableEq, Repr

/-- Modelled from the spec: the error kinds of §7. -/
inductive ErrorKind where
  | embeddingUnavailable
  | generationFailed (cause : String)
  | execError (e : ExecError)
  deriving DecidableEq, Repr

/-- Outcome of the cache-lookup stage (§4.5): a hit carrying the cached SQL
and its score, a miss, or an embedding-provider failure. -/
inductive LookupOutcome where
  | hit (sql : String) (score : ℚ)
  | miss
  | embeddingUnavailable
  deriving DecidableEq, Repr

/-- Whether a lookup outcome is a cache hit. -/
def isHit : LookupOutcome → Bool
  | LookupOutcome.hit _ _ => true
  | _ => false

/-- Modelled from the spec: the external collaborators of one pipeline run,
abstracted as deterministic oracles (§9 design note): the embedding
provider's availability, the per-question similarity scores of stored
entries, the language-model generation call, and database execution. -/
structure Env where
  embedOk : Bool
  sim : String → CacheEntry → ℚ
  generate : String → Except String String
  execute : String → Except ExecError (List Row)

/-- Modelled from the spec: the cache-lookup stage; when the embedding
provider is unavailable the lookup fails with `EmbeddingUnavailable`
(§4.1), otherwise it is the semantic-cache `lookup`. -/
def cacheLookup (env : Env) (cache : List CacheEntry) (q : String) :
    LookupOutcome :=
  if env.embedOk then
    match lookup (env.sim q) cache with
    | some (sql, s) => LookupOutcome.hit sql s
    | none => LookupOutcome.miss
  else LookupOutcome.embeddingUnavailable

/-- Modelled from the spec: the response returned to the external caller at
`Done`: sql, result rows, the cached flag, optional error (§4.5). -/
structure Response where
  sql : Option String
  resultRows : List Row
  cached : Bool
  error : Option ErrorKind
  deriving DecidableEq, Repr

/-- Stage labels of the orchestrator state machine (§4.5). -/
inductive StageTag where
  | startT
  | lookupT
  | hitT
  | missT
  | generateT
  | executeT
  | successT
  | failedT
  | persistT
  | doneT
  deriving DecidableEq, Repr

/-- The outcome of one pipeline run: the response handed to the caller, the
cache contents after the run, and the sequence of stages visited. -/
structure RunResult where
  response : Response
  cache : List CacheEntry
  path : List StageTag
  deriving DecidableEq, Repr

/-- The stage path of a run that went CacheMiss, Generate, Execute, Success
and persisted a new cache entry (§4.5). -/
def missSuccessPath : List StageTag :=
  [StageTag.startT, StageTag.lookupT, StageTag.missT, StageTag.generateT,
   StageTag.executeT, StageTag.successT, StageTag.persistT, StageTag.doneT]

/-- Modelled from the spec: the generation branch of the orchestrator,
reached from `CacheMiss` (§4.5).  On `GenerationFailed` the machine moves
directly to `Failed` carrying the error, without attempting execution; on a
generated statement it executes, and only a successful execution persists
the new `(question, sql)` entry at the head of the cache. -/
def genPath (env : Env) (cache : List CacheEntry) (q : String) : RunResult :=
  match env.generate q with
  | Except.error cause =>
      { response :=
          { sql := none
            resultRows := []
            cached := false
            error := some (ErrorKind.generationFailed cause) }
        cache := cache
        path := [StageTag.startT, StageTag.lookupT, StageTag.missT,
                 StageTag.generateT, StageTag.failedT, StageTag.doneT] }
  | Except.ok sql =>
      match env.execute sql with
      | Except.ok rows =>
          { response :=
              { sql := some sql
                resultRows := rows
                cached := false
                error := none }
            cache := { question := q, sql := sql } :: cache
            path := missSuccessPath }
      | Except.error e =>
          { response :=
              { sql := some sql
                resultRows := []
                cached := false
                error := some (ErrorKind.execError e) }
            cache := cache
            path := [StageTag.startT, StageTag.lookupT, StageTag.missT,
                     StageTag.generateT, StageTag.executeT, StageTag.failedT,
                     StageTag.doneT] }

/-- Modelled from the spec: one run of the orchestrator state machine
(§4.5).  A cache hit executes the cached SQL and never re-inserts; a miss
or an `EmbeddingUnavailable` lookup failure degrades to the generation
branch; any execution error transitions to `Failed` without cache
insertion. -/
def runQuery (env : Env) (cache : List CacheEntry) (q : String) : RunResult :=
  match cacheLookup env cache q with
  | LookupOutcome.hit sql _ =>
      match env.execute sql with
      | Except.ok rows =>
          { response :=
              { sql := some sql
                resultRows := rows
                cached := true
                error := none }
            cache := cache
            path := [StageTag.startT, StageTag.lookupT, StageTag.hitT,
                     StageTag.executeT, StageTag.successT, StageTag.doneT] }
      | Except.error e =>
          { response :=
              { sql := some sql
                resultRows := []
                cached := true
                error := some (ErrorKind.execError e) }
            cache := cache
            path := [StageTag.startT, StageTag.lookupT, StageTag.hitT,
                     StageTag.executeT, StageTag.failedT, StageTag.doneT] }
  | LookupOutcome.miss => genPath env cache q
  | LookupOutcome.embeddingUnavailable => genPath env cache q

/-- Modelled from the spec: the human-readable message attached to an error
surfaced to the caller; a generation failure carries the underlying cause
verbatim (§7). -/
def errorMessage : ErrorKind → String
  | ErrorKind.embeddingUnavailable => "Embedding provider unavailable"
  | ErrorKind.generationFailed cause => "SQL generation failed: " ++ cause
  | ErrorKind.execError ExecError.synErr => "SQL error"
  | ErrorKind.execError ExecError.schemaErr => "Unknown table or column"
  | ErrorKind.execError ExecError.connErr => "Database connection error"
  | ErrorKind.execError ExecError.timeoutErr => "Query timed out"

/-- Feedback metrics as the frontend receives them on the wire, from the
`feedback_metrics` field of `QueryResult` in `Text2SQLInterface.tsx`. -/
structure FeedbackMetricsUI where
  thumbs_up : ℕ
  thumbs_down : ℕ
  total_feedback : ℕ
  performance_level : String
  warning : Option String
  success_rate : ℚ
  deriving DecidableEq, Repr

/-- The `QueryResult` interface of `Text2SQLInterface.tsx`: the backend's
response to `POST /api/query` as consumed by the component. -/
structure QueryResult where
  sql_query : String
  results : List Row
  cached : Bool
  error : Option String
  message_count : ℕ
  feedback_metrics : Option FeedbackMetricsUI
  similar_examples : List (String × String)
  deriving DecidableEq, Repr

/-- The React state of `Text2SQLInterface`: the `useState` hooks
`question`, `loading`, `result`, `schema`, `feedbackSubmitted` and
`submittingFeedback`. -/
structure UIState where
  question : String
  loading : Bool
  result : Option QueryResult
  schema : String
  feedbackSubmitted : Bool
  submittingFeedback : Bool
  deriving DecidableEq, Repr

/-- An HTTP request issued by the component: the axios POSTs to
`/api/query` and `/api/feedback`. -/
inductive ApiCall where
  | postQuery (question : String)
  | postFeedback (question : String) (sql : String) (up : Bool)
  deriving DecidableEq, Repr

/-- Outcome of an awaited axios call: resolved data, or a rejection
carrying `error.response?.data?.detail` and `error.message`. -/
inductive HttpOutcome (α : Type) where
  | ok (data : α)
  | err (detail : Option String) (message : String)

/-- JavaScript `String.prototype.trim` on the character sequence: strip
whitespace from both ends.  (`String.trim` of the source`s host language,
modelled structurally.) -/
def jsTrim (s : String) : String :=
  String.mk
    (((s.data.dropWhile Char.isWhitespace).reverse.dropWhile
        Char.isWhitespace).reverse)

/-- JavaScript `a || b` over an optional string and a fallback: the
fallback is used when `a` is absent or empty (falsy). -/
def jsOr (a : Option String) (b : String) : String :=
  match a with
  | some s => if s = "" then b else s
  | none => b

/-- The structured result the catch branch of `handleQuery` stores:
empty SQL, no rows, not cached, and the error text
`error.response?.data?.detail || error.message`
(`Text2SQLInterface.tsx` lines 92 to 98). -/
def errResult (detail : Option String) (message : String) : QueryResult :=
  { sql_query := ""
    results := []
    cached := false
    error := some (jsOr detail message)
    message_count := 0
    feedback_metrics := none
    similar_examples := [] }

/-- `handleQuery` of `Text2SQLInterface.tsx` (lines 79 to 102), as a state
transformer: given the question argument and the outcome of the awaited
POST, it returns the final component state and the requests issued.  An
empty or whitespace-only question returns immediately; otherwise the run
sets loading, clears the previous result and feedback flag, issues the
POST, stores either the response data or a structured error result, and
finally clears loading. -/
def handleQuery (st : UIState) (q : String)
    (outcome : HttpOutcome QueryResult) : UIState × List ApiCall :=
  if jsTrim q = "" then (st, [])
  else
    let st1 := { st with loading := true, result := none,
                         feedbackSubmitted := false }
    match outcome with
    | HttpOutcome.ok data =>
        ({ st1 with result := some data, loading := false },
         [ApiCall.postQuery q])
    | HttpOutcome.err detail message =>
        ({ st1 with result := some (errResult detail message),
                    loading := false },
         [ApiCall.postQuery q])

/-- The body of a successful `POST /api/feedback` response as used by
`handleFeedback`: optional updated metrics and an optional message. -/
structure FeedbackReply where
  metrics : Option FeedbackMetricsUI
  message : Option String
  deriving DecidableEq, Repr

/-- `handleFeedback` of `Text2SQLInterface.tsx` (lines 104 to 134), as a
state transformer.  It returns immediately when no result is displayed or
feedback was already submitted; otherwise it POSTs the vote, and on success
sets `feedbackSubmitted` and merges any returned metrics into the displayed
result; on failure it only clears `submittingFeedback`. -/
def handleFeedback (st : UIState) (up : Bool)
    (outcome : HttpOutcome FeedbackReply) : UIState × List ApiCall :=
  match st.result with
  | none => (st, [])
  | some r =>
    if st.feedbackSubmitted then (st, [])
    else
      match outcome with
      | HttpOutcome.ok reply =>
          let st2 := { st with feedbackSubmitted := true,
                               submittingFeedback := false }
          let st3 :=
            match reply.metrics with
            | some m =>
                { st2 with result := some { r with feedback_metrics := some m } }
            | none => st2
          (st3, [ApiCall.postFeedback st.question r.sql_query up])
      | HttpOutcome.err _ _ =>
          ({ st with submittingFeedback := false },
           [ApiCall.postFeedback st.question r.sql_query up])

/-- A chat message of the CopilotKit API route (`role`, `content`). -/
structure ChatMessage where
  role : String
  content : String
  deriving DecidableEq, Repr

/-- The request body of the CopilotKit API route. -/
structure CopilotBody where
  messages : List ChatMessage
  deriving DecidableEq, Repr

/-- Outcome of the route`s `fetch` to the backend: parsed data, a non-ok
HTTP status, or a network failure. -/
inductive FetchOutcome where
  | ok (data : QueryResult)
  | notOk
  | netErr (message : String)
  deriving DecidableEq, Repr

/-- Whether the fetch outcome is a failure (a non-ok status makes the route
throw, and a network error rejects; both land in the catch block). -/
def fetchFailed : FetchOutcome → Bool
  | FetchOutcome.ok _ => false
  | _ => true

/-- A reply of the CopilotKit API route: a JSON message list, or a JSON
error object with an HTTP status. -/
inductive RouteReply where
  | json (messages : List ChatMessage)
  | errorJson (status : ℕ) (error : String)
  deriving DecidableEq, Repr

/-- The `responseText` built by the route (part of the repository`s API
route source, lines 32 to 45): an error reply renders the backend`s error
field, a success reply renders the SQL, row count, cached flag and an
optional sample block.  `showJson` abstracts `JSON.stringify` over rows. -/
def renderResponseText (showJson : List Row → String)
    (data : QueryResult) : String :=
  match data.error with
  | some e => "❌ Error: " ++ e
  | none =>
      let base :=
        "✅ Query executed successfully!\n\n**SQL Query:**\n```sql\n"
          ++ data.sql_query ++ "\n```\n\n**Results:** "
          ++ toString data.results.length ++ " rows\n**Cached:** "
          ++ (if data.cached then "✓ Yes" else "✗ No") ++ "\n\n"
      if 0 < data.results.length then
        base ++ "**Sample Data:**\n```json\n"
          ++ showJson (data.results.take 3) ++ "\n```"
      else base

/-- The POST handler of the CopilotKit API route: parse the body; when the
last message is from the user, query the backend and append an assistant
message; a parse failure or a failed fetch is caught and answered with a
structured 500 JSON error; otherwise the messages are echoed back. -/
def copilotPOST (showJson : List Row → String)
    (parse : Except String CopilotBody) (f : FetchOutcome) : RouteReply :=
  match parse with
  | Except.error _ => RouteReply.errorJson 500 "Internal server error"
  | Except.ok body =>
      match body.messages.getLast? with
      | some last =>
          if last.role = "user" then
            match f with
            | FetchOutcome.ok data =>
                RouteReply.json
                  (body.messages
                    ++ [{ role := "assistant",
                          content := renderResponseText showJson data }])
            | FetchOutcome.notOk =>
                RouteReply.errorJson 500 "Internal server error"
            | FetchOutcome.netErr _ =>
                RouteReply.errorJson 500 "Internal server error"
          else RouteReply.json body.messages
      | none => RouteReply.json body.messages

/-- A sample cache entry used to exercise the lookup boundary. -/
def entry1 : CacheEntry :=
  { question := "show all customers", sql := "SELECT * FROM customers" }

/-- A sample environment: embedding available, no similar entries, a
generator that returns a fixed statement, an executor that succeeds. -/
def envMissOk : Env :=
  { embedOk := true
    sim := fun _ _ => 0
    generate := fun _ => Except.ok "SELECT 1"
    execute := fun _ => Except.ok [[("id", "1")]] }

/-- As `envMissOk` but with the embedding provider down. -/
def envNoEmbed : Env := { envMissOk with embedOk := false }

/-- As `envMissOk` but with a failing language-model call. -/
def envGenFail : Env :=
  { envMissOk with generate := fun _ => Except.error "model unavailable" }

/-- As `envMissOk` but with a failing database connection. -/
def envExecFail : Env :=
  { envMissOk with execute := fun _ => Except.error ExecError.connErr }

/-- A sample successful backend response as seen by the component. -/
def qrOk : QueryResult :=
  { sql_query := "SELECT 1"
    results := []
    cached := false
    error := none
    message_count := 0
    feedback_metrics := none
    similar_examples := [] }

/-- The component state before any interaction. -/
def stIdle : UIState :=
  { question := "show all customers"
    loading := false
    result := none
    schema := ""
    feedbackSubmitted := false
    submittingFeedback := false }

/-- The component state with a displayed query result. -/
def stWithResult : UIState := { stIdle with result := some qrOk }

/-- A feedback reply with no metrics attached. -/
def replyEmpty : FeedbackReply := { metrics := none, message := none }

/-- A sample thumbs-up feedback event. -/
def upEvent : FeedbackEvent :=
  { question := "show all customers"
    sql := "SELECT * FROM customers"
    vote := true
    timestamp := 0 }

/-- Appending an event keeps all previous events of its question group and
adds the new event at the end of that group. -/
theorem eventsFor_append_self (log : List FeedbackEvent) (e : FeedbackEvent) :
    eventsFor (log ++ [e]) e.question = eventsFor log e.question ++ [e] := by
  simp [eventsFor]

/-- C1: for every stored cache state and incoming question, Semantic Cache
lookup returns the best-matching entry exactly when its similarity score is
greater than or equal to the threshold 0.85 (a score of exactly 0.85 is a
hit), and returns none (cache miss) when the best score is below 0.85. -/
theorem C1_lookup_threshold (sim : CacheEntry → ℚ) (cache : List CacheEntry)
    (e : CacheEntry) (s : ℚ) (hbest : bestMatch sim cache = some (e, s)) :
    (THRESHOLD ≤ s → lookup sim cache = some (e.sql, s)) ∧
    (s < THRESHOLD → lookup sim cache = none) := by
  have h1 : lookup sim cache
      = if THRESHOLD ≤ s then some (e.sql, s) else none := by
    simp [lookup, hbest]
  constructor
  · intro h
    rw [h1, if_pos h]
  · intro h
    rw [h1, if_neg (not_le.mpr h)]

/-- C1 witness: a single stored entry whose similarity is exactly the 0.85
threshold is returned as a hit. -/
theorem C1_lookup_threshold_witness :
    lookup (fun _ => THRESHOLD) [entry1] = some (entry1.sql, THRESHOLD) :=
  (C1_lookup_threshold (fun _ => THRESHOLD) [entry1] entry1 THRESHOLD rfl).1
    (le_refl THRESHOLD)

/-- C2: the performance level is derived by first-match priority: 3 or more
thumbs down gives critical, else 2 or more thumbs down gives poor, else
3 or more thumbs up gives excellent, else 2 or more thumbs up gives good,
else neutral; in particular (0,3) is critical, (0,2) poor, (3,0) excellent,
(2,0) good, (1,1) neutral and (0,0) neutral. -/
theorem C2_performance_level (u d : ℕ) :
    (performanceLevel u d = PerformanceLevel.critical ↔ 3 ≤ d) ∧
    (performanceLevel u d = PerformanceLevel.poor ↔ 2 ≤ d ∧ d < 3) ∧
    (performanceLevel u d = PerformanceLevel.excellent ↔ d < 2 ∧ 3 ≤ u) ∧
    (performanceLevel u d = PerformanceLevel.good ↔ d < 2 ∧ 2 ≤ u ∧ u < 3) ∧
    (performanceLevel u d = PerformanceLevel.neutral ↔ d < 2 ∧ u < 2) ∧
    performanceLevel 0 3 = PerformanceLevel.critical ∧
    performanceLevel 0 2 = PerformanceLevel.poor ∧
    performanceLevel 3 0 = PerformanceLevel.excellent ∧
    performanceLevel 2 0 = PerformanceLevel.good ∧
    performanceLevel 1 1 = PerformanceLevel.neutral ∧
    performanceLevel 0 0 = PerformanceLevel.neutral := by
  refine ⟨?_, ?_, ?_, ?_, ?_,
    by decide, by decide, by decide, by decide, by decide, by decide⟩ <;>
  · unfold performanceLevel
    split_ifs <;> simp_all <;> omega

/-- C6: the success rate equals thumbs up divided by total feedback times
100, equals 0 when the total is 0, and (3,1) yields 75. -/
theorem C6_success_rate :
    (∀ u d : ℕ, u + d ≠ 0 →
      successRate u d = (u : ℚ) / ((u : ℚ) + (d : ℚ)) * 100) ∧
    (∀ u d : ℕ, u + d = 0 → successRate u d = 0) ∧
    successRate 3 1 = 75 := by
  refine ⟨?_, ?_, ?_⟩
  · intro u d h
    simp [successRate, h]
  · intro u d h
    simp [successRate, h]
  · norm_num [successRate]

/-- C6 witness: the rate formula instantiated at (3,1), and the zero case
at (0,0). -/
theorem C6_success_rate_witness :
    successRate 3 1
      = ((3 : ℕ) : ℚ) / (((3 : ℕ) : ℚ) + ((1 : ℕ) : ℚ)) * 100 ∧
    successRate 0 0 = 0 :=
  ⟨C6_success_rate.1 3 1 (by decide), C6_success_rate.2.1 0 0 rfl⟩

/-- C7: metrics are a pure function of the event log: reading twice with no
intervening append is identical, `addFeedback` appends exactly its event
and returns the metrics recomputed from the updated log, and the next read
for that question reflects the new event: the total grows by one and the
matching vote counter grows by one. -/
theorem C7_metrics_pure (log : List FeedbackEvent) (e : FeedbackEvent)
    (q : String) :
    getMetrics log q = getMetrics log q ∧
    (addFeedback log e).1 = log ++ [e] ∧
    (addFeedback log e).2 = getMetrics ((addFeedback log e).1) e.question ∧
    (getMetrics (log ++ [e]) e.question).totalFeedback
      = (getMetrics log e.question).totalFeedback + 1 ∧
    (e.vote = true →
      (getMetrics (log ++ [e]) e.question).thumbsUp
        = (getMetrics log e.question).thumbsUp + 1) ∧
    (e.vote = false →
      (getMetrics (log ++ [e]) e.question).thumbsDown
        = (getMetrics log e.question).thumbsDown + 1) := by
  refine ⟨rfl, rfl, rfl, ?_, ?_, ?_⟩
  · cases hv : e.vote <;>
      simp [getMetrics, eventsFor_append_self, List.filter_append, hv] <;>
      omega
  · intro hv
    simp [getMetrics, eventsFor_append_self, List.filter_append, hv]
  · intro hv
    simp [getMetrics, eventsFor_append_self, List.filter_append, hv]

/-- C7 witness: after appending a thumbs-up event to the empty log, the
next read of that question counts one more thumbs up. -/
theorem C7_metrics_pure_witness :
    (getMetrics ([] ++ [upEvent]) upEvent.question).thumbsUp
      = (getMetrics [] upEvent.question).thumbsUp + 1 :=
  (C7_metrics_pure [] upEvent "x").2.2.2.2.1 rfl

/-- C3: a cache entry is inserted exactly when the run took the path
CacheMiss, Generate, Execute, Success: on that path the entry count grows
by exactly one and the new entry carries the generated SQL; on a cache-hit
path, and on any failing run, the cache is unchanged. -/
theorem C3_cache_persist (env : Env) (cache : List CacheEntry) (q : String) :
    ((runQuery env cache q).path = missSuccessPath ↔
      (runQuery env cache q).cache.length = cache.length + 1) ∧
    (∀ sql, (runQuery env cache q).path = missSuccessPath →
      env.generate q = Except.ok sql →
      (runQuery env cache q).cache = { question := q, sql := sql } :: cache) ∧
    (isHit (cacheLookup env cache q) = true →
      (runQuery env cache q).cache = cache) ∧
    ((runQuery env cache q).response.error.isSome = true →
      (runQuery env cache q).cache = cache) := by
  cases hcl : cacheLookup env cache q with
  | hit sql score =>
      cases hex : env.execute sql with
      | ok rows =>
          refine ⟨?_, ?_, ?_, ?_⟩ <;>
            simp [runQuery, hcl, hex, isHit, missSuccessPath]
      | error e =>
          refine ⟨?_, ?_, ?_, ?_⟩ <;>
            simp [runQuery, hcl, hex, isHit, missSuccessPath]
  | miss =>
      cases hgen : env.generate q with
      | error cause =>
          refine ⟨?_, ?_, ?_, ?_⟩ <;>
            simp [runQuery, genPath, hcl, hgen, isHit, missSuccessPath]
      | ok sql =>
          cases hex : env.execute sql with
          | ok rows =>
              refine ⟨?_, ?_, ?_, ?_⟩
              · simp [runQuery, genPath, hcl, hgen, hex]
              · intro sql2 _ hg2
                injection hg2 with h2
                subst h2
                simp [runQuery, genPath, hcl, hgen, hex]
              · simp [isHit, hcl]
              · simp [runQuery, genPath, hcl, hgen, hex]
          | error e =>
              refine ⟨?_, ?_, ?_, ?_⟩ <;>
                simp [runQuery, genPath, hcl, hgen, hex, isHit, missSuccessPath]
  | embeddingUnavailable =>
      cases hgen : env.generate q with
      | error cause =>
          refine ⟨?_, ?_, ?_, ?_⟩ <;>
            simp [runQuery, genPath, hcl, hgen, isHit, missSuccessPath]
      | ok sql =>
          cases hex : env.execute sql with
          | ok rows =>
              refine ⟨?_, ?_, ?_, ?_⟩
              · simp [runQuery, genPath, hcl, hgen, hex]
              · intro sql2 _ hg2
                injection hg2 with h2
                subst h2
                simp [runQuery, genPath, hcl, hgen, hex]
              · simp [isHit, hcl]
              · simp [runQuery, genPath, hcl, hgen, hex]
          | error e =>
              refine ⟨?_, ?_, ?_, ?_⟩ <;>
                simp [runQuery, genPath, hcl, hgen, hex, isHit, missSuccessPath]

/-- C3 witness: a miss of the empty cache followed by a successful
generation and execution persists exactly the generated entry. -/
theorem C3_cache_persist_witness :
    (runQuery envMissOk [] "list orders").cache
      = [{ question := "list orders", sql := "SELECT 1" }] :=
  (C3_cache_persist envMissOk [] "list orders").2.1 "SELECT 1" (by decide) rfl

/-- C4: when the embedding provider fails during cache lookup, the run
proceeds exactly as on a cache miss (the generation branch), and the
response handed to the caller never contains `EmbeddingUnavailable`. -/
theorem C4_embedding_degraded (env : Env) (cache : List CacheEntry)
    (q : String) :
    (env.embedOk = false → runQuery env cache q = genPath env cache q) ∧
    (cacheLookup env cache q = LookupOutcome.miss →
      runQuery env cache q = genPath env cache q) ∧
    (runQuery env cache q).response.error
      ≠ some ErrorKind.embeddingUnavailable := by
  refine ⟨?_, ?_, ?_⟩
  · intro h
    have hcl : cacheLookup env cache q = LookupOutcome.embeddingUnavailable := by
      simp [cacheLookup, h]
    simp [runQuery, hcl]
  · intro hcl
    simp [runQuery, hcl]
  · cases hcl : cacheLookup env cache q with
    | hit sql score =>
        cases hex : env.execute sql <;> simp [runQuery, hcl, hex]
    | miss =>
        cases hgen : env.generate q with
        | error cause => simp [runQuery, genPath, hcl, hgen]
        | ok sql =>
            cases hex : env.execute sql <;>
              simp [runQuery, genPath, hcl, hgen, hex]
    | embeddingUnavailable =>
        cases hgen : env.generate q with
        | error cause => simp [runQuery, genPath, hcl, hgen]
        | ok sql =>
            cases hex : env.execute sql <;>
              simp [runQuery, genPath, hcl, hgen, hex]

/-- C4 witness: with the embedding provider down, the run is the generation
branch verbatim. -/
theorem C4_embedding_degraded_witness :
    runQuery envNoEmbed [] "show totals" = genPath envNoEmbed [] "show totals" :=
  (C4_embedding_degraded envNoEmbed [] "show totals").1 rfl

/-- C5: a generation failure moves the machine directly to Failed carrying
that error: the response holds `GenerationFailed` with the cause, no
fallback SQL is produced, the execute stage is never visited (the run does
not depend on the executor at all), and the surfaced message contains the
underlying cause. -/
theorem C5_generation_failed (env : Env) (cache : List CacheEntry)
    (q cause : String)
    (hmiss : isHit (cacheLookup env cache q) = false)
    (hgen : env.generate q = Except.error cause) :
    (runQuery env cache q).response.error
      = some (ErrorKind.generationFailed cause) ∧
    (runQuery env cache q).response.sql = none ∧
    (runQuery env cache q).path
      = [StageTag.startT, StageTag.lookupT, StageTag.missT,
         StageTag.generateT, StageTag.failedT, StageTag.doneT] ∧
    (∀ exec2, runQuery { env with execute := exec2 } cache q
      = runQuery env cache q) ∧
    ∃ pre, errorMessage (ErrorKind.generationFailed cause) = pre ++ cause := by
  obtain ⟨eo, simf, genf, exef⟩ := env
  have hgen2 : genf q = Except.error cause := hgen
  have hrun : ∀ exef2,
      runQuery (Env.mk eo simf genf exef2) cache q
        = genPath (Env.mk eo simf genf exef2) cache q := by
    intro exef2
    cases hcl : cacheLookup (Env.mk eo simf genf exef2) cache q with
    | hit sql score =>
        rw [show cacheLookup (Env.mk eo simf genf exef2) cache q
              = cacheLookup (Env.mk eo simf genf exef) cache q from rfl]
          at hcl
        rw [hcl] at hmiss
        simp [isHit] at hmiss
    | miss => simp [runQuery, hcl]
    | embeddingUnavailable => simp [runQuery, hcl]
  refine ⟨?_, ?_, ?_, ?_, ⟨"SQL generation failed: ", rfl⟩⟩
  · rw [hrun exef]
    simp [genPath, hgen2]
  · rw [hrun exef]
    simp [genPath, hgen2]
  · rw [hrun exef]
    simp [genPath, hgen2]
  · intro exec2
    rw [hrun exef, hrun exec2]
    simp [genPath, hgen2]

/-- C5 witness: a concrete failing generation surfaces exactly that cause
and produces no SQL. -/
theorem C5_generation_failed_witness :
    (runQuery envGenFail [] "show totals").response.error
      = some (ErrorKind.generationFailed "model unavailable") :=
  (C5_generation_failed envGenFail [] "show totals" "model unavailable"
    (by decide) rfl).1

/-- C8: every stage failure reaches the caller as a structured error
object alongside whatever partial data exists: a failed execution surfaces
its error together with the attempted SQL, a failed generation surfaces
its cause (with no SQL, since none exists); the component`s catch branch
stores a structured result, and the API route answers a parse or fetch
failure with a structured 500 JSON error; a backend error field is
rendered, never re-thrown. -/
theorem C8_structured_errors (env : Env) (cache : List CacheEntry)
    (q : String) (st : UIState) (outcome : HttpOutcome QueryResult)
    (parse : Except String CopilotBody) (f : FetchOutcome)
    (showJson : List Row → String) :
    (∀ ex, (runQuery env cache q).response.error
        = some (ErrorKind.execError ex) →
      ∃ sql, (runQuery env cache q).response.sql = some sql ∧
        env.execute sql = Except.error ex) ∧
    (∀ cause, (runQuery env cache q).response.error
        = some (ErrorKind.generationFailed cause) →
      (runQuery env cache q).response.sql = none ∧
        env.generate q = Except.error cause) ∧
    (∀ detail message, jsTrim q ≠ "" →
      outcome = HttpOutcome.err detail message →
      (handleQuery st q outcome).1.loading = false ∧
        (handleQuery st q outcome).1.result
          = some (errResult detail message)) ∧
    (∀ m, parse = Except.error m →
      copilotPOST showJson parse f
        = RouteReply.errorJson 500 "Internal server error") ∧
    (∀ body last, parse = Except.ok body →
      body.messages.getLast? = some last → last.role = "user" →
      fetchFailed f = true →
      copilotPOST showJson parse f
        = RouteReply.errorJson 500 "Internal server error") ∧
    (∀ data e, data.error = some e →
      renderResponseText showJson data = "❌ Error: " ++ e) := by
  refine ⟨?_, ?_, ?_, ?_, ?_, ?_⟩
  · intro ex hresp
    cases hcl : cacheLookup env cache q with
    | hit sql score =>
        cases hex : env.execute sql with
        | ok rows => simp [runQuery, hcl, hex] at hresp
        | error e =>
            simp [runQuery, hcl, hex] at hresp
            subst hresp
            exact ⟨sql, by simp [runQuery, hcl, hex], hex⟩
    | miss =>
        cases hgen : env.generate q with
        | error cause => simp [runQuery, genPath, hcl, hgen] at hresp
        | ok sql =>
            cases hex : env.execute sql with
            | ok rows => simp [runQuery, genPath, hcl, hgen, hex] at hresp
            | error e =>
                simp [runQuery, genPath, hcl, hgen, hex] at hresp
                subst hresp
                exact ⟨sql, by simp [runQuery, genPath, hcl, hgen, hex], hex⟩
    | embeddingUnavailable =>
        cases hgen : env.generate q with
        | error cause => simp [runQuery, genPath, hcl, hgen] at hresp
        | ok sql =>
            cases hex : env.execute sql with
            | ok rows => simp [runQuery, genPath, hcl, hgen, hex] at hresp
            | error e =>
                simp [runQuery, genPath, hcl, hgen, hex] at hresp
                subst hresp
                exact ⟨sql, by simp [runQuery, genPath, hcl, hgen, hex], hex⟩
  · intro cause hresp
    cases hcl : cacheLookup env cache q with
    | hit sql score =>
        cases hex : env.execute sql <;> simp [runQuery, hcl, hex] at hresp
    | miss =>
        cases hgen : env.generate q with
        | error cause2 =>
            simp [runQuery, genPath, hcl, hgen] at hresp
            subst hresp
            exact ⟨by simp [runQuery, genPath, hcl, hgen], rfl⟩
        | ok sql =>
            cases hex : env.execute sql <;>
              simp [runQuery, genPath, hcl, hgen, hex] at hresp
    | embeddingUnavailable =>
        cases hgen : env.generate q with
        | error cause2 =>
            simp [runQuery, genPath, hcl, hgen] at hresp
            subst hresp
            exact ⟨by simp [runQuery, genPath, hcl, hgen], rfl⟩
        | ok sql =>
            cases hex : env.execute sql <;>
              simp [runQuery, genPath, hcl, hgen, hex] at hresp
  · intro detail message ht ho
    subst ho
    constructor
    · simp [handleQuery, ht]
    · simp [handleQuery, ht]
  · intro m hp
    subst hp
    simp [copilotPOST]
  · intro body last hp hl hrole hf
    subst hp
    cases f with
    | ok data => simp [fetchFailed] at hf
    | notOk => simp [copilotPOST, hl, hrole]
    | netErr m2 => simp [copilotPOST, hl, hrole]
  · intro data e he
    simp [renderResponseText, he]

/-- C8 witness: a concrete failed execution surfaces the attempted SQL with
the structured error, and a malformed route body is answered with the
structured 500 JSON error. -/
theorem C8_structured_errors_witness :
    (∃ sql, (runQuery envExecFail [] "list orders").response.sql = some sql ∧
      envExecFail.execute sql = Except.error ExecError.connErr) ∧
    copilotPOST (fun _ => "") (Except.error "bad body") FetchOutcome.notOk
      = RouteReply.errorJson 500 "Internal server error" :=
  ⟨(C8_structured_errors envExecFail [] "list orders" stIdle
      (HttpOutcome.err none "Network Error") (Except.error "bad body")
      FetchOutcome.notOk (fun _ => "")).1 ExecError.connErr (by decide),
   (C8_structured_errors envExecFail [] "list orders" stIdle
      (HttpOutcome.err none "Network Error") (Except.error "bad body")
      FetchOutcome.notOk (fun _ => "")).2.2.2.1 "bad body" rfl⟩

/-- C9: an empty or whitespace-only question makes `handleQuery` return
immediately: no HTTP request is issued and the component state (loading,
result, feedbackSubmitted and the rest) is unchanged. -/
theorem C9_blank_question_noop (st : UIState) (q : String)
    (outcome : HttpOutcome QueryResult) (h : jsTrim q = "") :
    handleQuery st q outcome = (st, []) := by
  simp [handleQuery, h]

/-- C9 witness: a whitespace-only question leaves the idle state untouched
and issues nothing. -/
theorem C9_blank_question_noop_witness :
    handleQuery stIdle "   " (HttpOutcome.ok qrOk) = (stIdle, []) :=
  C9_blank_question_noop stIdle "   " (HttpOutcome.ok qrOk) (by decide)

/-- A state whose feedback flag is set ignores further feedback clicks. -/
theorem handleFeedback_submitted_noop (st : UIState) (up : Bool)
    (out : HttpOutcome FeedbackReply) (h : st.feedbackSubmitted = true) :
    handleFeedback st up out = (st, []) := by
  cases hres : st.result with
  | none => simp [handleFeedback, hres]
  | some r => simp [handleFeedback, hres, h]

/-- C10: at most one feedback submission per displayed result:
`handleFeedback` issues no request when no result is displayed or feedback
was already submitted, and a successful submission sets the submitted flag,
so every later call for the same displayed result issues no request. -/
theorem C10_single_feedback (st : UIState) (up : Bool)
    (outcome : HttpOutcome FeedbackReply) :
    (st.result = none → handleFeedback st up outcome = (st, [])) ∧
    (st.feedbackSubmitted = true → handleFeedback st up outcome = (st, [])) ∧
    (∀ r reply, st.result = some r → st.feedbackSubmitted = false →
      outcome = HttpOutcome.ok reply →
      (handleFeedback st up outcome).1.feedbackSubmitted = true ∧
      ∀ up2 out2,
        (handleFeedback (handleFeedback st up outcome).1 up2 out2).2 = []) := by
  refine ⟨?_, ?_, ?_⟩
  · intro h
    simp [handleFeedback, h]
  · intro h
    cases hres : st.result with
    | none => simp [handleFeedback, hres]
    | some r => simp [handleFeedback, hres, h]
  · intro r reply hres hfb ho
    subst ho
    have hstate :
        (handleFeedback st up (HttpOutcome.ok reply)).1.feedbackSubmitted
          = true := by
      cases hm : reply.metrics <;> simp [handleFeedback, hres, hfb, hm]
    refine ⟨hstate, ?_⟩
    intro up2 out2
    rw [handleFeedback_submitted_noop _ up2 out2 hstate]

/-- C10 witness: one successful submission on a displayed result sets the
flag, and the following click issues no request. -/
theorem C10_single_feedback_witness :
    (handleFeedback stWithResult true
        (HttpOutcome.ok replyEmpty)).1.feedbackSubmitted = true ∧
    (handleFeedback
        (handleFeedback stWithResult true (HttpOutcome.ok replyEmpty)).1
        false (HttpOutcome.err none "network down")).2 = [] := by
  have h := (C10_single_feedback stWithResult true
      (HttpOutcome.ok replyEmpty)).2.2 qrOk replyEmpty rfl rfl rfl
  exact ⟨h.1, h.2 false (HttpOutcome.err none "network down")⟩
